import Mathlib

/-!
# Verification of the Online_bk_backend auth and rating logic

Shallow embedding of the Express/Mongoose backend:

* `src/models/User.js` — the Mongoose `UserSchema` (fields `name`, `email`,
  `phone`, `password`; note the schema declares **no** `profilePicture` path,
  so Mongoose strict mode discards that value).
* `src/routes/Auth.js` — the `/register`, `/login` handlers.
* `src/authMiddleware.js` — the bearer-token guard.
* `src/app.js` — the product-rating handler (`POST /api/products/:id/rate`).

External collaborators (bcryptjs, jsonwebtoken, the MongoDB store,
JavaScript string split) are modelled executably: the bcrypt digest is an
injective tagged encoding of (cost, plaintext), a JWT is an injective
encoding of (payload, signing secret) over a space-free alphabet, and the
store is an in-memory list with a fresh-id counter.  JavaScript numbers in
the rating formula are modelled as exact rationals.
-/

namespace OnlineBk

/-! ## JSON-ish values

Express `res.json` serialises a JavaScript object; keys whose value is
`undefined` are dropped by `JSON.stringify`.  We model a response body as an
association list of fields whose values may be `undef`, a string, a Mongo
object id, or one nested object (the `user` view). -/

/-- A JavaScript value as it appears in this app's response objects. -/
inductive JsVal where
  | undef
  | str (s : String)
  | oid (n : Nat)
  | obj (fields : List (String × JsVal))

/-- An HTTP response: status code plus the JSON body's top-level fields. -/
structure HttpResponse where
  status : Nat
  body : List (String × JsVal)

/-- Field lookup in a JavaScript object literal. -/
def lookupField (fields : List (String × JsVal)) (key : String) : Option JsVal :=
  (fields.find? (fun kv => kv.1 == key)).map (fun kv => kv.2)

/-- Whether a value survives `JSON.stringify` (only `undefined` is dropped). -/
def survivesJson (v : JsVal) : Bool :=
  match v with
  | .undef => false
  | _ => true

/-- The keys a JavaScript object literal actually contributes to the
serialised JSON body: keys with `undefined` values are omitted. -/
def jsonKeys (fields : List (String × JsVal)) : List String :=
  (fields.filter (fun kv => survivesJson kv.2)).map (fun kv => kv.1)

/-- All string values occurring in a body (one level of object nesting, which
is all the responses of this app use).  Used to state that a response never
carries the password hash. -/
def flatStrs (fields : List (String × JsVal)) : List String :=
  fields.foldr
    (fun kv acc =>
      match kv.2 with
      | .str s => s :: acc
      | .obj fs =>
          fs.foldr (fun kv2 acc2 =>
            match kv2.2 with
            | .str s => s :: acc2
            | _ => acc2) acc
      | _ => acc)
    []

/-! ## Password hasher (bcryptjs)

`bcrypt.hash(password, 10)` produces a modular-crypt digest `$2b$10$...`.
We model the digest as the injective encoding `"$2b$" ++ cost ++ "$" ++
plaintext` — the salt and the one-way transformation are abstracted away,
but the digest keeps the shape (cost parameter readable from the digest)
and `bcrypt.compare` re-derives the digest using the parameters stored in
the hash, exactly as bcryptjs does. -/

/-- Model of `bcrypt.hash(password, cost)`. -/
def bcryptHash (password : String) (cost : Nat) : String :=
  "$2b$" ++ toString cost ++ "$" ++ password

/-- Model of `bcrypt.compare(password, hash)`: parse the digest's header and
cost, then check the password against the digest's payload. -/
def bcryptCompare (password hash : String) : Bool :=
  match hash.data with
  | '$' :: '2' :: 'b' :: '$' :: rest =>
      let ds := rest.takeWhile Char.isDigit
      match rest.dropWhile Char.isDigit with
      | '$' :: raw => !ds.isEmpty && raw == password.data
      | _ => false
  | _ => false

/-! ## Token issuer/verifier (jsonwebtoken)

`jwt.sign({ id }, secret, { expiresIn: '1h' })` produces a compact token
whose payload carries the subject id, an issued-at time and an expiry one
hour (3600 s) later, plus a signature that is a function of the signing
secret.  `jwt.verify(token, secret)` parses the token, checks the signature
against `secret`, then checks the expiry against the clock.

The token string is modelled over the alphabet `J A E S i x` (never a
space, like real base64url-encoded JWTs): the numbers are unary runs of
`'i'` and the secret-dependent signature encodes each character of the
secret as a unary run terminated by `'x'`.  The encoding is injective and
executably decodable, which is all the claims need — the cryptographic
one-wayness of the real HMAC is abstracted away. -/

/-- Decoded JWT claims: subject id, issued-at, expiry (seconds). -/
structure JwtPayload where
  id : Nat
  iat : Nat
  exp : Nat
deriving DecidableEq

/-- Signature part: each character of the secret as a unary run of `'i'`
terminated by `'x'`. -/
def encSecretL : List Char → List Char
  | [] => []
  | c :: cs => List.replicate c.toNat 'i' ++ 'x' :: encSecretL cs

/-- The serialised token, as a character list. -/
def jwtSignL (p : JwtPayload) (secret : String) : List Char :=
  'J' :: (List.replicate p.id 'i' ++
    'A' :: (List.replicate p.iat 'i' ++
      'E' :: (List.replicate p.exp 'i' ++
        'S' :: encSecretL secret.data)))

/-- Model of `jwt.sign(payload, secret)`. -/
def jwtSign (p : JwtPayload) (secret : String) : String :=
  String.mk (jwtSignL p secret)

/-- Read a leading unary run of `'i'`, returning its length and the rest. -/
def takeUnary : List Char → Nat × List Char
  | [] => (0, [])
  | c :: rest =>
      if c = 'i' then
        let (n, r) := takeUnary rest
        (n + 1, r)
      else (0, c :: rest)

/-- Parse a token into its claims and its signature part. -/
def jwtParse (l : List Char) : Option (JwtPayload × List Char) :=
  match l with
  | 'J' :: r1 =>
      let (i, r2) := takeUnary r1
      match r2 with
      | 'A' :: r3 =>
          let (a, r4) := takeUnary r3
          match r4 with
          | 'E' :: r5 =>
              let (e, r6) := takeUnary r5
              match r6 with
              | 'S' :: sig => some (⟨i, a, e⟩, sig)
              | _ => none
          | _ => none
      | _ => none
  | _ => none

/-- Model of `jwt.verify(token, secret)` at clock time `now`: parse
(malformed tokens fail), check the signature against `secret`, then check
expiry — jsonwebtoken raises `TokenExpiredError` when `now ≥ exp`, so a
past-expiry token is rejected even when its signature is valid. -/
def jwtVerify (token : String) (secret : String) (now : Nat) : Except String JwtPayload :=
  match jwtParse token.data with
  | none => .error "jwt malformed"
  | some (p, sig) =>
      if sig = encSecretL secret.data then
        if p.exp ≤ now then .error "jwt expired" else .ok p
      else .error "invalid signature"

/-! ## User model (`src/models/User.js`)

`UserSchema` declares exactly the paths `name`, `email`, `phone`,
`password` — all required strings, `email` with the match validator
`/.+\@.+\..+/`.  There is **no** `profilePicture` path, so under Mongoose's
default strict mode a `profilePicture` value passed to the constructor is
discarded and reads back as `undefined`. -/

/-- A persisted user document: Mongo's `_id` plus the schema's paths. -/
structure UserDoc where
  _id : Nat
  name : String
  email : String
  phone : String
  password : String
deriving DecidableEq

/-- The credential store: user documents plus a fresh-id counter. -/
structure DB where
  users : List UserDoc
  nextId : Nat
deriving DecidableEq

/-- Model of `User.findOne({ email })`: first stored document with that
email. -/
def findOne (db : DB) (email : String) : Option UserDoc :=
  db.users.find? (fun u => u.email == email)

/-- A character the JavaScript regex `.` matches (anything but a line
terminator). -/
def jsRegexDotChar (c : Char) : Bool :=
  !(c = '\n' || c = '\r' || c.toNat = 0x2028 || c.toNat = 0x2029)

/-- Model of `/.+\@.+\..+/.test(s)`: some substring decomposes as a
non-empty dot-run, `'@'`, a non-empty dot-run, `'.'`, a non-empty dot-run.
Positions `p` and `q` are the indices of the `'@'` and of the literal
`'.'`; the first and last `.+` need only one character each, while the
middle `.+` must cover everything strictly between `p` and `q`. -/
def emailRegexTest (l : List Char) : Bool :=
  (List.range l.length).any fun p =>
    (List.range l.length).any fun q =>
      decide (1 ≤ p) && decide (p + 2 ≤ q) && decide (q + 2 ≤ l.length) &&
      (l.getD p ' ' == '@') && (l.getD q ' ' == '.') &&
      jsRegexDotChar (l.getD (p - 1) ' ') &&
      ((List.range (q - (p + 1))).all fun k => jsRegexDotChar (l.getD (p + 1 + k) ' ')) &&
      jsRegexDotChar (l.getD (q + 1) ' ')

/-- Schema validation run by Mongoose on `save()`: each path's `required`
check (empty strings fail it for `String` paths), and the email `match`
validator (which Mongoose skips on empty strings — here the required check
fires first anyway).  Returns the failing path's message. -/
def validateUser (u : UserDoc) : Option String :=
  if u.name = "" then some "Name is required"
  else if u.email = "" then some "Email is required"
  else if !emailRegexTest u.email.data then some "Please fill a valid email address"
  else if u.phone = "" then some "Phone is required"
  else if u.password = "" then some "Password is required"
  else none

/-- Model of `newUser.save()`: validate against the schema, then append the
document; a validation failure is a thrown `ValidationError` (modelled as
`Except.error` carrying the failing path's message). -/
def saveUser (db : DB) (u : UserDoc) : Except String DB :=
  match validateUser u with
  | some msg => .error msg
  | none => .ok { users := db.users ++ [u], nextId := db.nextId + 1 }

/-- The public user view the handlers put in responses: the object literal
`{ id, name, email, phone, profilePicture }`.  `profilePicture` is
`undefined` because `UserSchema` has no such path, so the document exposes
none. -/
def publicUserFields (u : UserDoc) : List (String × JsVal) :=
  [("id", .oid u._id), ("name", .str u.name), ("email", .str u.email),
   ("phone", .str u.phone), ("profilePicture", .undef)]

/-! ## `POST /api/auth/register` (`src/routes/Auth.js` lines 36–79) -/

/-- The register handler.  `name`/`email`/`phone`/`password` model the
request-body fields (the empty string standing for a missing or empty
field, both falsy in `!name`); `file` models `req.file` from the multer
upload.  Any exception thrown inside the `try` (in particular a Mongoose
`ValidationError` from `save()`) lands in the catch, which answers
`500 { message: 'Server error', error }`. -/
def register (db : DB) (name email phone password : String) (file : Option String) :
    HttpResponse × DB :=
  if name = "" || email = "" || phone = "" || password = "" then
    ({ status := 400, body := [("message", .str "All fields are required")] }, db)
  else
    match findOne db email with
    | some _ =>
        ({ status := 400, body := [("message", .str "User already exists")] }, db)
    | none =>
        let hashedPassword := bcryptHash password 10
        -- req.file ? req.file.path : ''
        let _profilePicture : String := match file with | some p => p | none => ""
        -- new User({ name, email, phone, password: hashedPassword, profilePicture }):
        -- strict mode keeps only schema paths, so the profilePicture value is
        -- discarded — UserSchema declares no such field.
        let newUser : UserDoc :=
          { _id := db.nextId, name := name, email := email, phone := phone,
            password := hashedPassword }
        match saveUser db newUser with
        | .error e =>
            ({ status := 500,
               body := [("message", .str "Server error"), ("error", .str e)] }, db)
        | .ok db2 =>
            ({ status := 201,
               body := [("message", .str "User registered successfully"),
                        ("user", .obj (publicUserFields newUser))] }, db2)

/-! ## `POST /api/auth/login` (`src/routes/Auth.js` lines 82–115) -/

/-- The login handler, over the outcome of the awaited
`User.findOne({ email })`: `.error e` models the store throwing (any
exception inside the `try` reaches the catch, which answers
`500 { message: error.message }`). -/
def loginHandler (lookup : Except String (Option UserDoc))
    (password secret : String) (now : Nat) : HttpResponse :=
  match lookup with
  | .error e => { status := 500, body := [("message", .str e)] }
  | .ok none =>
      { status := 400, body := [("message", .str "Invalid email or password")] }
  | .ok (some user) =>
      if bcryptCompare password user.password then
        -- jwt.sign({ id: user._id }, process.env.JWT_SECRET, { expiresIn: '1h' })
        let token := jwtSign { id := user._id, iat := now, exp := now + 3600 } secret
        { status := 200,
          body := [("token", .str token), ("user", .obj (publicUserFields user))] }
      else
        { status := 400, body := [("message", .str "Invalid email or password")] }

/-- Login against the store at clock time `now`. -/
def login (db : DB) (email password secret : String) (now : Nat) : HttpResponse :=
  loginHandler (.ok (findOne db email)) password secret now

/-! ## Authorization guard (`src/authMiddleware.js`) -/

/-- Outcome of the guard: either the decoded claims are attached to the
request (`req.user = decoded; next()`), or the request is denied with a
status and message.  The guard takes no store argument at all — it performs
no lookup. -/
inductive GuardResult where
  | authorized (claims : JwtPayload)
  | denied (status : Nat) (message : String)
deriving DecidableEq

/-- JavaScript `String.prototype.split(' ')`: split on every single space,
keeping empty segments. -/
def splitSpaceAux : List Char → List Char → List (List Char)
  | [], acc => [acc.reverse]
  | c :: rest, acc =>
      if c = ' ' then acc.reverse :: splitSpaceAux rest []
      else splitSpaceAux rest (c :: acc)

/-- Model of `s.split(' ')`. -/
def splitSpace (s : String) : List String :=
  (splitSpaceAux s.data []).map String.mk

/-- `req.header('Authorization')?.split(' ')[1]`, with JavaScript's
falsiness folded in: an absent header, an absent index-1 segment, or an
empty segment all count as "no token". -/
def extractToken (header : Option String) : Option String :=
  match header.bind (fun h => (splitSpace h).get? 1) with
  | none => none
  | some t => if t = "" then none else some t

/-- The guard: extract the bearer token segment, then `jwt.verify` it.  No
scheme check is performed on the first segment, and no store is consulted. -/
def authMiddleware (header : Option String) (secret : String) (now : Nat) : GuardResult :=
  match extractToken header with
  | none => .denied 401 "Authorization denied. No token provided."
  | some t =>
      match jwtVerify t secret now with
      | .ok decoded => .authorized decoded
      | .error _ => .denied 401 "Token is not valid"

/-! ## Product rating (`src/app.js` lines 151–179, `src/product.js`)

JavaScript numbers in the rating formula are modelled as exact rationals. -/

/-- The nested `rating` sub-document of `productSchema` (both paths default
to 0). -/
structure Rating where
  averageRating : ℚ
  numberOfRatings : ℚ
deriving DecidableEq

/-- A product document, after `productSchema`. -/
structure Product where
  name : String
  price : ℚ
  category : String
  description : String
  imgUrl : String
  hotel : String
  isFeatured : Bool
  isBestDeal : Bool
  rating : Rating
deriving DecidableEq

/-- Outcome of the rate handler: an error body, or the updated product
echoed back. -/
inductive RateResult where
  | response (status : Nat) (message : String)
  | updated (status : Nat) (product : Product)
deriving DecidableEq

/-- The `POST /api/products/:id/rate` handler, over the outcome of
`Product.findById`.  The guard `!newRating || newRating < 1 || newRating > 5`
runs first (`0` is falsy, so `newRating = 0` is also rejected by the first
disjunct); then a missing product is a 404; otherwise the running average is
updated incrementally. -/
def rateProduct (found : Option Product) (newRating : ℚ) : RateResult :=
  if newRating = 0 ∨ newRating < 1 ∨ newRating > 5 then
    .response 400 "Rating must be between 1 and 5"
  else
    match found with
    | none => .response 404 "Product not found"
    | some product =>
        let totalRating :=
          product.rating.averageRating * product.rating.numberOfRatings + newRating
        let updatedNumberOfRatings := product.rating.numberOfRatings + 1
        let updatedAverageRating := totalRating / updatedNumberOfRatings
        .updated 200 { product with
          rating := { averageRating := updatedAverageRating,
                      numberOfRatings := updatedNumberOfRatings } }

/-! ## Concrete fixtures used by witnesses and counterexamples -/

/-- An empty store. -/
def emptyDB : DB := { users := [], nextId := 0 }

/-- The document the concrete scenario of the spec registers. -/
def userA : UserDoc :=
  { _id := 0, name := "A", email := "a@x.com", phone := "1",
    password := bcryptHash "pw12345" 10 }

/-- A store holding exactly `userA`. -/
def dbOne : DB := { users := [userA], nextId := 1 }

/-- A product with two ratings averaging 3. -/
def productP : Product :=
  { name := "P", price := 9, category := "food", description := "d",
    imgUrl := "", hotel := "H", isFeatured := false, isBestDeal := false,
    rating := { averageRating := 3, numberOfRatings := 2 } }

/-! ## Helper lemmas -/

theorem string_data_append (a b : String) : (a ++ b).data = a.data ++ b.data := rfl

/-- The modelled digest is strictly longer than the plaintext, hence the
stored hash is never the plaintext itself. -/
theorem bcryptHash_ne_plain (password : String) (cost : Nat) :
    bcryptHash password cost ≠ password := by
  intro h
  have hlen : (bcryptHash password cost).length = password.length := by rw [h]
  have : (bcryptHash password cost).length =
      ("$2b$" ++ toString cost ++ "$").length + password.length := by
    simp [bcryptHash, String.length_append, Nat.add_assoc]
  have hpos : 0 < ("$2b$" ++ toString cost ++ "$").length := by
    rw [String.length_append, String.length_append]
    have h4 : "$2b$".length = 4 := rfl
    omega
  omega

/-- Verification round-trip at the work factor the source uses. -/
theorem bcryptCompare_hash (password : String) :
    bcryptCompare password (bcryptHash password 10) = true := by
  have hdata : (bcryptHash password 10).data =
      '$' :: '2' :: 'b' :: '$' :: ('1' :: '0' :: '$' :: password.data) := rfl
  simp [bcryptCompare, hdata, List.takeWhile, List.dropWhile]

theorem takeUnary_replicate_cons (n : Nat) (c : Char) (rest : List Char) (hc : c ≠ 'i') :
    takeUnary (List.replicate n 'i' ++ c :: rest) = (n, c :: rest) := by
  induction n with
  | zero => simp [takeUnary, hc]
  | succ k ih => simp [List.replicate_succ, takeUnary, ih]

theorem jwtParse_sign (p : JwtPayload) (secret : String) :
    jwtParse (jwtSignL p secret) = some (p, encSecretL secret.data) := by
  have hA : ('A' : Char) ≠ 'i' := by decide
  have hE : ('E' : Char) ≠ 'i' := by decide
  have hS : ('S' : Char) ≠ 'i' := by decide
  simp [jwtSignL, jwtParse, takeUnary_replicate_cons _ _ _ hA,
    takeUnary_replicate_cons _ _ _ hE, takeUnary_replicate_cons _ _ _ hS]

/-- Issue/verify round trip: a freshly signed token verifies under the same
secret exactly when the clock has not reached the expiry. -/
theorem jwtVerify_sign (p : JwtPayload) (secret : String) (now : Nat) :
    jwtVerify (jwtSign p secret) secret now =
      if p.exp ≤ now then .error "jwt expired" else .ok p := by
  simp [jwtVerify, jwtSign, jwtParse_sign]

theorem mem_encSecretL {c : Char} {l : List Char} (h : c ∈ encSecretL l) :
    c = 'i' ∨ c = 'x' := by
  induction l with
  | nil => simp [encSecretL] at h
  | cons d ds ih =>
      simp [encSecretL, List.mem_append, List.mem_replicate] at h
      rcases h with h | h | h
      · exact Or.inl h.2
      · exact Or.inr h
      · exact ih h

theorem space_not_mem_encSecretL (l : List Char) : ' ' ∉ encSecretL l := by
  intro h
  rcases mem_encSecretL h with h | h <;> exact absurd h (by decide)

/-- Tokens never contain a space, so `header.split(' ')` keeps them whole. -/
theorem space_not_mem_jwtSignL (p : JwtPayload) (secret : String) :
    ' ' ∉ jwtSignL p secret := by
  simp +decide [jwtSignL, List.mem_cons, List.mem_append, List.mem_replicate,
    space_not_mem_encSecretL]

/-- A signed token is never the empty string. -/
theorem jwtSign_ne_empty (p : JwtPayload) (secret : String) :
    jwtSign p secret ≠ "" := by
  intro h
  have : jwtSignL p secret = [] := congrArg String.data h
  simp [jwtSignL] at this

theorem splitSpaceAux_no_space (w : List Char) (acc : List Char) (h : ' ' ∉ w) :
    splitSpaceAux w acc = [acc.reverse ++ w] := by
  induction w generalizing acc with
  | nil => simp [splitSpaceAux]
  | cons c cs ih =>
      have hc : c ≠ ' ' := fun hc => h (hc ▸ List.mem_cons_self c cs)
      have hcs : ' ' ∉ cs := fun hm => h (List.mem_cons_of_mem c hm)
      simp [splitSpaceAux, hc, ih _ hcs]

theorem splitSpaceAux_append (w rest acc : List Char) (h : ' ' ∉ w) :
    splitSpaceAux (w ++ ' ' :: rest) acc =
      (acc.reverse ++ w) :: splitSpaceAux rest [] := by
  induction w generalizing acc with
  | nil => simp [splitSpaceAux]
  | cons c cs ih =>
      have hc : c ≠ ' ' := fun hc => h (hc ▸ List.mem_cons_self c cs)
      have hcs : ' ' ∉ cs := fun hm => h (List.mem_cons_of_mem c hm)
      simp [splitSpaceAux, hc, ih _ hcs]

theorem splitSpace_no_space (s : String) (h : ' ' ∉ s.data) : splitSpace s = [s] := by
  simp [splitSpace, splitSpaceAux_no_space _ _ h]

theorem splitSpace_scheme_token (scheme tok : String)
    (hs : ' ' ∉ scheme.data) (ht : ' ' ∉ tok.data) :
    splitSpace (scheme ++ " " ++ tok) = [scheme, tok] := by
  have hdata : (scheme ++ " " ++ tok).data = scheme.data ++ ' ' :: tok.data := by
    rw [string_data_append, string_data_append]
    simp
  simp [splitSpace, hdata, splitSpaceAux_append _ _ _ hs,
    splitSpaceAux_no_space _ _ ht]

/-! ## Claims -/

/-- C3: login failure is non-distinguishable — a login whose email matches
no stored user and a login whose email matches a user but whose password
fails hash verification produce the identical response: the same status
code (400) and the same error message ("Invalid email or password"). -/
theorem login_failure_indistinguishable (db : DB)
    (email1 password1 email2 password2 secret : String) (now1 now2 : Nat)
    (u : UserDoc)
    (h1 : findOne db email1 = none)
    (h2 : findOne db email2 = some u)
    (hpw : bcryptCompare password2 u.password = false) :
    login db email1 password1 secret now1 = login db email2 password2 secret now2 ∧
    login db email1 password1 secret now1 =
      { status := 400, body := [("message", .str "Invalid email or password")] } := by
  constructor
  · simp [login, loginHandler, h1, h2, hpw]
  · simp [login, loginHandler, h1]

/-- Witness for C3: on a store holding only `userA`, logging in with an
unknown email and logging in with `userA`'s email but a wrong password give
the identical 400 response. -/
theorem login_failure_indistinguishable_witness :
    login dbOne "z@x.com" "whatever" "s" 0 = login dbOne "a@x.com" "wrong" "s" 7 ∧
    login dbOne "z@x.com" "whatever" "s" 0 =
      { status := 400, body := [("message", .str "Invalid email or password")] } :=
  login_failure_indistinguishable dbOne "z@x.com" "whatever" "a@x.com" "wrong" "s" 0 7
    userA (by decide) (by decide) (by decide)

/-- C4: registering an email that already exists in the store fails with the
conflict response (HTTP 400, "User already exists") and performs no insert —
the store is returned unchanged, so the number of records with that email
(in particular, exactly one) is preserved. -/
theorem register_duplicate_email_conflict (db : DB)
    (name email phone password : String) (file : Option String) (u : UserDoc)
    (hn : name ≠ "") (he : email ≠ "") (hp : phone ≠ "") (hpw : password ≠ "")
    (hu : findOne db email = some u) :
    register db name email phone password file =
      ({ status := 400, body := [("message", .str "User already exists")] }, db) ∧
    ((register db name email phone password file).2.users.filter
        (fun w => w.email == email)).length
      = (db.users.filter (fun w => w.email == email)).length := by
  have hreg : register db name email phone password file =
      ({ status := 400, body := [("message", .str "User already exists")] }, db) := by
    simp [register, hn, he, hp, hpw, hu]
  exact ⟨hreg, by rw [hreg]⟩

/-- Witness for C4: re-registering `userA`'s email against `dbOne` yields
the conflict response and leaves the store with exactly its one record. -/
theorem register_duplicate_email_conflict_witness :
    register dbOne "B" "a@x.com" "2" "otherpw" none =
      ({ status := 400, body := [("message", .str "User already exists")] }, dbOne) ∧
    ((register dbOne "B" "a@x.com" "2" "otherpw" none).2.users.filter
        (fun w => w.email == "a@x.com")).length
      = (dbOne.users.filter (fun w => w.email == "a@x.com")).length :=
  register_duplicate_email_conflict dbOne "B" "a@x.com" "2" "otherpw" none userA
    (by decide) (by decide) (by decide) (by decide) (by decide)

/-- C8 counterexample: when the awaited store lookup throws during login,
the catch answers HTTP 500, not 400 — the claim that the source always
returns 400 for internal login failures is false. -/
theorem login_internal_failure_counterexample :
    (loginHandler (.error "boom") "pw12345" "s" 0).status = 500 ∧
    (loginHandler (.error "boom") "pw12345" "s" 0).status ≠ 400 := by
  constructor
  · rfl
  · decide

/-- C8 (amended): every internal failure thrown during login reaches the
handler's catch, which answers HTTP 500 with the error's message. -/
theorem login_internal_failure_500 (e password secret : String) (now : Nat) :
    loginHandler (.error e) password secret now =
      { status := 500, body := [("message", .str e)] } := rfl

/-- C5: the guard authorizes a request if and only if a token segment is
present in the Authorization header and it verifies under the server secret
at the current clock (`jwtVerify` checks the signature before the expiry, so
an expired token is rejected even when its signature is valid).  An absent
header or token segment is denied 401 "no token"; a present segment whose
verification fails (malformed, signature mismatch, or expired) is denied
401 "invalid token".  `authMiddleware` takes no store argument: the decoded
claims it returns are produced with no store lookup. -/
theorem guard_characterization (header : Option String) (secret : String) (now : Nat) :
    (extractToken header = none →
      authMiddleware header secret now =
        .denied 401 "Authorization denied. No token provided.") ∧
    (∀ t e, extractToken header = some t → jwtVerify t secret now = .error e →
      authMiddleware header secret now = .denied 401 "Token is not valid") ∧
    (∀ p, authMiddleware header secret now = .authorized p ↔
      ∃ t, extractToken header = some t ∧ jwtVerify t secret now = .ok p) := by
  refine ⟨?_, ?_, ?_⟩
  · intro h
    simp [authMiddleware, h]
  · intro t e ht he
    simp [authMiddleware, ht, he]
  · intro p
    constructor
    · intro h
      cases hx : extractToken header with
      | none => simp [authMiddleware, hx] at h
      | some t =>
          cases hv : jwtVerify t secret now with
          | ok q =>
              have hq : q = p := by simpa [authMiddleware, hx, hv] using h
              exact ⟨t, rfl, hq ▸ hv⟩
          | error e => simp [authMiddleware, hx, hv] at h
    · rintro ⟨t, hx, hv⟩
      simp [authMiddleware, hx, hv]

/-- Witness for C5: a request with no Authorization header is denied 401
with the no-token message. -/
theorem guard_characterization_witness :
    authMiddleware none "s" 0 = .denied 401 "Authorization denied. No token provided." :=
  (guard_characterization none "s" 0).1 rfl

/-- C9: for a found product with average `a` and count `n ≥ 0`, an accepted
rating `r` (`1 ≤ r ≤ 5` passes the guard) updates the product to average
`(a*n + r) / (n+1)` and count `n + 1`, and the divisor `n + 1` is nonzero. -/
theorem rate_product_average_update (p : Product) (r : ℚ)
    (h1 : 1 ≤ r) (h5 : r ≤ 5) (hn : 0 ≤ p.rating.numberOfRatings) :
    rateProduct (some p) r =
      .updated 200 { p with rating :=
        { averageRating :=
            (p.rating.averageRating * p.rating.numberOfRatings + r) /
              (p.rating.numberOfRatings + 1),
          numberOfRatings := p.rating.numberOfRatings + 1 } } ∧
    p.rating.numberOfRatings + 1 ≠ 0 := by
  have hguard : ¬ (r = 0 ∨ r < 1 ∨ r > 5) := by
    push_neg
    exact ⟨by intro h; rw [h] at h1; norm_num at h1, by linarith, by linarith⟩
  have hpos : (0 : ℚ) < p.rating.numberOfRatings + 1 := by linarith
  exact ⟨by simp [rateProduct, hguard], hpos.ne'⟩

/-- Witness for C9: rating `productP` (average 3 over 2 ratings) with 4
gives average `(3*2+4)/(2+1)` over 3 ratings. -/
theorem rate_product_average_update_witness :
    rateProduct (some productP) 4 =
      .updated 200 { productP with rating :=
        { averageRating :=
            (productP.rating.averageRating * productP.rating.numberOfRatings + 4) /
              (productP.rating.numberOfRatings + 1),
          numberOfRatings := productP.rating.numberOfRatings + 1 } } ∧
    productP.rating.numberOfRatings + 1 ≠ 0 :=
  rate_product_average_update productP 4 (by norm_num) (by norm_num)
    (by norm_num [productP])

/-- C2: token round trip — for a registered user, login with their email
and correct password answers 200 with a freshly signed token, and
presenting that token to the guard as `Bearer <token>` under the same
secret before its one-hour expiry authorizes the request with decoded
claims whose `id` equals the user's stored `_id`. -/
theorem login_token_guard_round_trip (db : DB) (u : UserDoc)
    (email password secret : String) (t0 t1 : Nat)
    (hu : findOne db email = some u)
    (hpw : bcryptCompare password u.password = true)
    (ht : t1 < t0 + 3600) :
    login db email password secret t0 =
      { status := 200,
        body := [("token", .str (jwtSign ⟨u._id, t0, t0 + 3600⟩ secret)),
                 ("user", .obj (publicUserFields u))] } ∧
    authMiddleware (some ("Bearer " ++ jwtSign ⟨u._id, t0, t0 + 3600⟩ secret)) secret t1 =
      .authorized ⟨u._id, t0, t0 + 3600⟩ := by
  constructor
  · simp [login, loginHandler, hu, hpw]
  · have hnosp : ' ' ∉ (jwtSign ⟨u._id, t0, t0 + 3600⟩ secret).data :=
      space_not_mem_jwtSignL ⟨u._id, t0, t0 + 3600⟩ secret
    have hsplit := splitSpace_scheme_token "Bearer"
      (jwtSign ⟨u._id, t0, t0 + 3600⟩ secret) (by decide) hnosp
    have hexp : ¬ (t0 + 3600 ≤ t1) := by omega
    have hsplit2 : splitSpace ("Bearer " ++ jwtSign ⟨u._id, t0, t0 + 3600⟩ secret)
        = ["Bearer", jwtSign ⟨u._id, t0, t0 + 3600⟩ secret] := hsplit
    simp [authMiddleware, extractToken, hsplit2, jwtSign_ne_empty,
      jwtVerify_sign, hexp]

/-- Witness for C2: on `dbOne`, logging in as `userA` at time 0 and passing
the returned token through the guard at time 100 yields `userA`'s id. -/
theorem login_token_guard_round_trip_witness :
    login dbOne "a@x.com" "pw12345" "topsecret" 0 =
      { status := 200,
        body := [("token", .str (jwtSign ⟨userA._id, 0, 0 + 3600⟩ "topsecret")),
                 ("user", .obj (publicUserFields userA))] } ∧
    authMiddleware (some ("Bearer " ++ jwtSign ⟨userA._id, 0, 0 + 3600⟩ "topsecret"))
        "topsecret" 100 =
      .authorized ⟨userA._id, 0, 0 + 3600⟩ :=
  login_token_guard_round_trip dbOne userA "a@x.com" "pw12345" "topsecret" 0 100
    (by decide) (by decide) (by decide)

/-- C10: the guard never checks the scheme word — for a header
`"<scheme> <token>"` with any space-free scheme word, the segment after the
first space is handed to verification (and authorized when it verifies),
while a header that is a single space-free segment is rejected with the
no-token 401 even when that segment is itself a token that would verify. -/
theorem guard_ignores_scheme (scheme tok secret : String) (now : Nat)
    (hs : ' ' ∉ scheme.data) (ht : ' ' ∉ tok.data) (hne : tok ≠ "") :
    (authMiddleware (some (scheme ++ " " ++ tok)) secret now =
      match jwtVerify tok secret now with
      | .ok decoded => .authorized decoded
      | .error _ => .denied 401 "Token is not valid") ∧
    (∀ p : JwtPayload, now < p.exp →
      authMiddleware (some (jwtSign p secret)) secret now =
        .denied 401 "Authorization denied. No token provided.") := by
  constructor
  · have hsplit := splitSpace_scheme_token scheme tok hs ht
    cases hv : jwtVerify tok secret now with
    | ok decoded => simp [authMiddleware, extractToken, hsplit, hne, hv]
    | error e => simp [authMiddleware, extractToken, hsplit, hne, hv]
  · intro p hp
    have hsingle := splitSpace_no_space (jwtSign p secret)
      (space_not_mem_jwtSignL p secret)
    simp [authMiddleware, extractToken, hsingle]

/-- Witness for C10: with scheme word "Basic" the token after the space is
still verified and authorized, while the bare token with no scheme at all
is rejected as missing — although it verifies at time 5. -/
theorem guard_ignores_scheme_witness :
    authMiddleware (some ("Basic " ++ jwtSign ⟨7, 0, 3600⟩ "k")) "k" 5 =
      .authorized ⟨7, 0, 3600⟩ ∧
    authMiddleware (some (jwtSign ⟨7, 0, 3600⟩ "k")) "k" 5 =
      .denied 401 "Authorization denied. No token provided." := by
  have h := guard_ignores_scheme "Basic" (jwtSign ⟨7, 0, 3600⟩ "k") "k" 5
    (by decide) (space_not_mem_jwtSignL ⟨7, 0, 3600⟩ "k") (jwtSign_ne_empty _ _)
  refine ⟨h.1.trans ?_, h.2 ⟨7, 0, 3600⟩ (by decide)⟩
  have hok : jwtVerify (jwtSign ⟨7, 0, 3600⟩ "k") "k" 5 = .ok ⟨7, 0, 3600⟩ := by
    rw [jwtVerify_sign]
    norm_num
  rw [hok]

/-- C1 (evaluated at the failing input): a successful register persists the
bcrypt hash at work factor 10 and never the plaintext, and the hash appears
nowhere in the 201 response — but the serialised response-body user object
carries only the keys `id, name, email, phone`: the `profilePicture` key is
dropped, because `UserSchema` has no such path, the document's value is
`undefined`, and `JSON.stringify` omits it. -/
theorem register_success_password_and_fields :
    (register emptyDB "A" "a@x.com" "1" "pw12345" none).1.status = 201 ∧
    (register emptyDB "A" "a@x.com" "1" "pw12345" none).2.users.map UserDoc.password
      = [bcryptHash "pw12345" 10] ∧
    bcryptHash "pw12345" 10 ≠ "pw12345" ∧
    bcryptHash "pw12345" 10 ∉
      flatStrs (register emptyDB "A" "a@x.com" "1" "pw12345" none).1.body ∧
    ∃ uf, lookupField (register emptyDB "A" "a@x.com" "1" "pw12345" none).1.body "user"
        = some (JsVal.obj uf) ∧
      jsonKeys uf = ["id", "name", "email", "phone"] := by
  refine ⟨by decide, by decide, by decide, by decide,
    ⟨publicUserFields userA, rfl, by decide⟩⟩

/-- C6 counterexample: registering with the well-formed-but-invalid email
"bademail" (no "@", no domain suffix) does not produce the claimed
HTTP 400 — the Mongoose `ValidationError` thrown by `save()` lands in the
generic catch, which answers HTTP 500 "Server error". -/
theorem register_bad_email_counterexample :
    (register emptyDB "A" "bademail" "1" "pw12345" none).1.status = 500 ∧
    (register emptyDB "A" "bademail" "1" "pw12345" none).1.status ≠ 400 ∧
    lookupField (register emptyDB "A" "bademail" "1" "pw12345" none).1.body "message"
      = some (JsVal.str "Server error") := by
  refine ⟨by decide, by decide, rfl⟩

/-- C6 (amended): a register request whose fields are all non-empty, whose
email is unused, but whose email fails the loose format validation, fails
with HTTP 500 and message "Server error" (the schema validation message in
the error detail), and the store is unchanged. -/
theorem register_bad_email_server_error (db : DB)
    (name email phone password : String) (file : Option String)
    (hn : name ≠ "") (he : email ≠ "") (hp : phone ≠ "") (hpw : password ≠ "")
    (hfree : findOne db email = none)
    (hbad : emailRegexTest email.data = false) :
    register db name email phone password file =
      ({ status := 500,
         body := [("message", .str "Server error"),
                  ("error", .str "Please fill a valid email address")] }, db) := by
  simp [register, hn, he, hp, hpw, hfree, saveUser, validateUser, hbad]

/-- Witness for C6 (amended): the concrete input of the counterexample. -/
theorem register_bad_email_server_error_witness :
    register emptyDB "A" "bademail" "1" "pw12345" none =
      ({ status := 500,
         body := [("message", .str "Server error"),
                  ("error", .str "Please fill a valid email address")] }, emptyDB) :=
  register_bad_email_server_error emptyDB "A" "bademail" "1" "pw12345" none
    (by decide) (by decide) (by decide) (by decide) (by decide) (by decide)

/-- C7 (evaluated at the failing input): for a user registered without a
profile picture, the public view's `profilePicture` is `undefined` — not
the empty string — both in the 201 register response and in the view
returned by a later login, and the key is absent from the serialised JSON:
`UserSchema` declares no `profilePicture` path, so the value the route
passes to the constructor is discarded by strict mode. -/
theorem register_profile_picture_dropped :
    (∃ uf, lookupField (register emptyDB "A" "a@x.com" "1" "pw12345" none).1.body "user"
        = some (JsVal.obj uf) ∧
      lookupField uf "profilePicture" = some JsVal.undef ∧
      lookupField uf "profilePicture" ≠ some (JsVal.str "") ∧
      "profilePicture" ∉ jsonKeys uf) ∧
    ∃ uf2, lookupField (login (register emptyDB "A" "a@x.com" "1" "pw12345" none).2
        "a@x.com" "pw12345" "s" 0).body "user" = some (JsVal.obj uf2) ∧
      lookupField uf2 "profilePicture" = some JsVal.undef := by
  refine ⟨⟨publicUserFields userA, rfl, rfl, ?_, by decide⟩,
    ⟨publicUserFields userA, rfl, rfl⟩⟩
  intro hcon
  injection hcon with hcon2
  exact JsVal.noConfusion hcon2

end OnlineBk
